import Mathlib

/-!
# Voice Turn-Taking Engine — shallow embedding

This file embeds the voice-activity-detection and turn-taking state machine
of the `VoiceChatRealtime` component (continuous listening, energy-based
voice/silence classification, debounced end-of-turn detection, and the
listen → process → speak → listen loop), together with the conversation
stop/cleanup path, and proves properties of it.

Modelling conventions:
* The component's mutable refs (`isActiveRef`, `isProcessingRef`,
  `hasSpokenRef`, the frame counters, the timer/animation/recorder/stream
  handles) become fields of an explicit state record `VCState`.
* A nullable handle is modelled as a `Bool` that says whether the handle is
  live: `silenceTimeout` ("a silence timeout is pending"), `vadLoop` ("an
  animation frame is scheduled"), `recorderRecording` ("the MediaRecorder
  exists and its state is 'recording'"; a null recorder counts as not
  recording), `streamPresent`, `analyserPresent`, `audioContextOpen`
  ("the AudioContext exists and is not closed"), `audioPresent`
  ("`currentAudioRef` holds an audio element").
* Frame energies are exact rationals; the decimal threshold literals of the
  source compare identically as rationals at every energy considered here.
* Timestamps (`Date.now()`) are natural numbers of milliseconds and are
  passed in explicitly wherever the source reads the clock.
* Message ids and timestamps are produced from the clock and randomness and
  play no role in any property below; a message is modelled by its role and
  text.  UI-only effects (volume meter updates, scrolling, rendering) are
  not modelled.  `Platform.OS` is `web` (the component refuses to start
  otherwise).
* The async `processAudio` is split at its `await` points: `processAudio`
  models the synchronous prefix up to the transcription request (its `Bool`
  result says whether that request is issued), `onTranscribeResult` models
  the continuation running when the transcription response arrives (its
  `Option String` result is the text sent to the response-generation
  endpoint, `none` meaning that endpoint is never called), and
  `onCommandResult` models the continuation running when the
  response-generation response arrives.
-/

/-- The conversation states of the turn controller. -/
inductive ConversationState where
  | idle
  | connecting
  | listening
  | processing
  | speaking
deriving Repr, DecidableEq

/-- Message roles: `'user' | 'charlie' | 'system'`. -/
inductive MsgType where
  | user
  | charlie
  | system
deriving Repr, DecidableEq

/-- A conversation-log message, by role and text (ids/timestamps come from
the clock and randomness and are irrelevant to every property proved here). -/
structure Message where
  type : MsgType
  text : String
deriving Repr, DecidableEq

/-- The releasable resources held by an active conversation session. -/
inductive Resource where
  | timer
  | animFrame
  | audioElement
  | recorder
  | stream
  | audioContext
deriving Repr, DecidableEq

/-- The component's state: React state plus every mutable ref. -/
structure VCState where
  isActive : Bool
  isProcessing : Bool
  state : ConversationState
  hasSpoken : Bool
  voiceFrameCount : Nat
  silenceFrameCount : Nat
  silenceTimeout : Bool
  vadLoop : Bool
  recorderRecording : Bool
  streamPresent : Bool
  analyserPresent : Bool
  audioContextOpen : Bool
  audioPresent : Bool
  recordingStartTime : Nat
  messages : List Message
deriving Repr, DecidableEq

/-- Voice Activity Detection setting: energy at/above 0.035 is voice
(`mkRat` keeps every comparison kernel-computable). -/
def VOICE_THRESHOLD : ℚ := mkRat 35 1000

/-- Below 0.015 is considered silence (before speech is confirmed). -/
def SILENCE_THRESHOLD : ℚ := mkRat 15 1000

/-- Consecutive above-threshold frames needed to count as speech. -/
def VOICE_FRAMES_REQUIRED : Nat := 5

/-- Consecutive below-threshold frames needed before starting the timeout. -/
def SILENCE_FRAMES_REQUIRED : Nat := 15

/-- Milliseconds of sustained silence after speech before processing. -/
def SILENCE_DURATION : Nat := 800

/-- Max recording duration in milliseconds (fallback). -/
def MAX_RECORDING_MS : Nat := 60000

/-- Drop leading whitespace characters from a character list. -/
def dropLeadingWs : List Char → List Char
  | [] => []
  | c :: cs => if c.isWhitespace then dropLeadingWs cs else c :: cs

/-- Embedding of the JavaScript `String.prototype.trim()` used by the
source on the transcription text: strip whitespace from both ends.
(Defined on the character list so that it is kernel-computable.) -/
def jsTrim (t : String) : String :=
  { data := (dropLeadingWs (dropLeadingWs t.data.reverse).reverse) }

/-- `addMessage(type, text)`: append one message to the conversation log. -/
def addMessage (s : VCState) (type : MsgType) (text : String) : VCState :=
  { s with messages := s.messages ++ [{ type := type, text := text }] }

/-- One tick of `detectVoiceActivity`, given the computed average energy and
the current clock.  The `Bool` result says whether `processCurrentRecording`
was invoked on this tick (the max-duration fallback); invoking it stops the
recorder.  The pending-timer arm/cancel effects mutate `silenceTimeout`;
the timer body itself is `fireSilenceTimeout` below. -/
def detectVoiceActivity (s : VCState) (average : ℚ) (now : Nat) :
    VCState × Bool :=
  if s.analyserPresent = false ∨ s.isActive = false then
    ({ s with vadLoop := false }, false)
  else if s.recorderRecording = true ∧ s.state = ConversationState.listening then
    if MAX_RECORDING_MS < now - s.recordingStartTime ∧ s.hasSpoken = true then
      ({ s with recorderRecording := false, vadLoop := false }, true)
    else if VOICE_THRESHOLD ≤ average then
      if VOICE_FRAMES_REQUIRED ≤ s.voiceFrameCount + 1 ∧ s.hasSpoken = false then
        ({ s with voiceFrameCount := s.voiceFrameCount + 1, silenceFrameCount := 0,
                  hasSpoken := true, silenceTimeout := false,
                  vadLoop := s.isActive }, false)
      else
        ({ s with voiceFrameCount := s.voiceFrameCount + 1, silenceFrameCount := 0,
                  silenceTimeout := false, vadLoop := s.isActive }, false)
    else if (s.hasSpoken = true ∧ average < VOICE_THRESHOLD)
         ∨ (s.hasSpoken = false ∧ average < SILENCE_THRESHOLD) then
      if s.hasSpoken = true ∧ SILENCE_FRAMES_REQUIRED ≤ s.silenceFrameCount + 1
         ∧ s.silenceTimeout = false then
        ({ s with silenceFrameCount := s.silenceFrameCount + 1, voiceFrameCount := 0,
                  silenceTimeout := true, vadLoop := s.isActive }, false)
      else
        ({ s with silenceFrameCount := s.silenceFrameCount + 1, voiceFrameCount := 0,
                  vadLoop := s.isActive }, false)
    else
      ({ s with voiceFrameCount := s.voiceFrameCount - 1,
                vadLoop := s.isActive }, false)
  else ({ s with vadLoop := s.isActive }, false)

/-- The body of the silence timeout scheduled by `detectVoiceActivity`
(runs `SILENCE_DURATION` ms after arming unless cancelled).  The `Bool`
result says whether `processCurrentRecording` was invoked (end-of-turn);
invoking it stops the recorder. -/
def fireSilenceTimeout (s : VCState) : VCState × Bool :=
  if s.recorderRecording = true ∧ s.isProcessing = false
     ∧ s.isActive = true ∧ s.hasSpoken = true then
    ({ s with silenceTimeout := false, recorderRecording := false }, true)
  else ({ s with silenceTimeout := false }, false)

/-- `startRecording()` at clock time `now`: reset speech tracking, start a
fresh MediaRecorder, and (re)start the VAD loop. -/
def startRecording (s : VCState) (now : Nat) : VCState :=
  if s.streamPresent = false ∨ s.isProcessing = true ∨ s.isActive = false then s
  else
    { s with silenceTimeout := false,
             hasSpoken := false,
             voiceFrameCount := 0,
             silenceFrameCount := 0,
             recordingStartTime := now,
             recorderRecording := true,
             state := ConversationState.listening,
             vadLoop := true }

/-- The synchronous prefix of `processAudio(audioBlob)`: the entry guards,
the short-noise skip, and the transition into `processing`.  The `Bool`
result says whether the transcription request is issued. -/
def processAudio (s : VCState) (blobSize : Nat) (now : Nat) : VCState × Bool :=
  if s.isProcessing = true ∨ s.isActive = false then (s, false)
  else if blobSize < 1000 ∧ s.hasSpoken = false then
    (if s.isActive = true then startRecording s now else s, false)
  else
    ({ s with isProcessing := true, state := ConversationState.processing }, true)

/-- The transcription response (`transcribeData`); a missing `data.text`
is modelled as the empty string (both are falsy in the source's check). -/
structure TranscribeResult where
  success : Bool
  text : String
deriving Repr, DecidableEq

/-- Continuation of `processAudio` once the transcription response arrives.
The `Option String` result is the trimmed text sent to the
response-generation endpoint; `none` means that endpoint is not called. -/
def onTranscribeResult (s : VCState) (r : TranscribeResult) (now : Nat) :
    VCState × Option String :=
  if r.success = false ∨ jsTrim r.text = "" then
    if s.isActive = true then
      (startRecording
        { s with isProcessing := false, state := ConversationState.listening } now,
       none)
    else ({ s with isProcessing := false }, none)
  else
    (addMessage s MsgType.user (jsTrim r.text), some (jsTrim r.text))

/-- The response-generation response (`commandData`); `audioBase64` says
whether an audio payload is present. -/
structure CommandResult where
  success : Bool
  text : String
  audioBase64 : Bool
deriving Repr, DecidableEq

/-- The shared resume path of `processAudio` (clear the processing flag,
then resume listening if the conversation is still active, else go idle). -/
def resumeAfterProcessing (s : VCState) (now : Nat) : VCState :=
  if s.isActive = true then
    startRecording
      { s with isProcessing := false, state := ConversationState.listening } now
  else { s with isProcessing := false, state := ConversationState.idle }

/-- Continuation of `processAudio` once the response-generation response
arrives: append Charlie's message and either start playback (`speaking`)
or resume listening. -/
def onCommandResult (s : VCState) (r : CommandResult) (now : Nat) : VCState :=
  if r.success = true ∧ r.text ≠ "" then
    let s1 := addMessage s MsgType.charlie r.text
    if r.audioBase64 = true then
      { s1 with state := ConversationState.speaking, audioPresent := true }
    else resumeAfterProcessing s1 now
  else resumeAfterProcessing s now

/-- `cleanup()`: clear all flags and counters and release every live
resource handle; the returned list records which resources were released
(in source order). -/
def cleanup (s : VCState) : VCState × List Resource :=
  let rel := (if s.silenceTimeout = true then [Resource.timer] else [])
      ++ (if s.vadLoop = true then [Resource.animFrame] else [])
      ++ (if s.audioPresent = true then [Resource.audioElement] else [])
      ++ (if s.recorderRecording = true then [Resource.recorder] else [])
      ++ (if s.streamPresent = true then [Resource.stream] else [])
      ++ (if s.audioContextOpen = true then [Resource.audioContext] else [])
  ({ s with isActive := false, isProcessing := false, hasSpoken := false,
            voiceFrameCount := 0, silenceFrameCount := 0,
            silenceTimeout := false, vadLoop := false, audioPresent := false,
            recorderRecording := false, streamPresent := false,
            audioContextOpen := false }, rel)

/-- `stopConversation()`: set inactive first, run `cleanup`, go `idle`,
and append the system message. -/
def stopConversation (s : VCState) : VCState × List Resource :=
  let s1 := { s with isActive := false }
  let r := cleanup s1
  (addMessage { r.1 with state := ConversationState.idle }
      MsgType.system "Conversation ended.", r.2)

/-- Run the VAD loop over a list of (average energy, clock time) frames,
recording whether any tick invoked `processCurrentRecording`. -/
def runFrames : VCState → List (ℚ × Nat) → VCState × Bool
  | s, [] => (s, false)
  | s, p :: l =>
    let r := detectVoiceActivity s p.1 p.2
    let rest := runFrames r.1 l
    (rest.1, r.2 || rest.2)

/-- Iterated `stopConversation` (state part only). -/
def stopIter : Nat → VCState → VCState
  | 0, s => s
  | n + 1, s => stopIter n (stopConversation s).1

/-- The state right after `startConversation` succeeds and the first
`startRecording` runs (clock 0): active, listening, recorder running,
speech tracking reset. -/
def listeningState : VCState where
  isActive := true
  isProcessing := false
  state := ConversationState.listening
  hasSpoken := false
  voiceFrameCount := 0
  silenceFrameCount := 0
  silenceTimeout := false
  vadLoop := true
  recorderRecording := true
  streamPresent := true
  analyserPresent := true
  audioContextOpen := true
  audioPresent := false
  recordingStartTime := 0
  messages := []

/-- Scenario B frame sequence: five frames at 0.04 then twenty at 0.005. -/
def scenarioB : List (ℚ × Nat) :=
  List.replicate 5 (mkRat 4 100, 0) ++ List.replicate 20 (mkRat 5 1000, 0)

/-- A reachable `processing` state: scenario B runs to end-of-turn, the
silence timeout fires, and `processAudio` accepts the finalized blob. -/
def procState : VCState :=
  (processAudio (fireSilenceTimeout (runFrames listeningState scenarioB).1).1
    5000 400).1

/-- Scenario A as frozen in the claim: ten frames at 0.05 (which in fact
exceeds `VOICE_THRESHOLD = 0.035`). -/
def scenarioAFrames : List (ℚ × Nat) := List.replicate 10 (mkRat 5 100, 0)

/-- Scenario A as the spec intends: ten frames at 0.005, genuinely below
`SILENCE_THRESHOLD = 0.015`. -/
def scenarioAIntended : List (ℚ × Nat) := List.replicate 10 (mkRat 5 1000, 0)

/-- A listening state mid-turn before speech is confirmed: three voice
frames and two silence frames have been counted. -/
def boundaryState : VCState :=
  { listeningState with voiceFrameCount := 3, silenceFrameCount := 2 }

/-- The decimal literals of the source agree with the `mkRat` constants. -/
theorem threshold_literals :
    VOICE_THRESHOLD = 0.035 ∧ SILENCE_THRESHOLD = 0.015 := by
  constructor <;> norm_num [VOICE_THRESHOLD, SILENCE_THRESHOLD, mkRat]

/-- C3: Scenario B — frames [0.04]*5 ++ [0.005]*20 with the source
constants: HasSpoken becomes true exactly at frame 5, the silence-frame
counter reaches 15 at frame 20 and the end-of-turn timer is armed there
(not at frame 19), no premature end-of-turn fires during the frames, the
state is still `listening` after them, the armed timer (which waits
`SILENCE_DURATION = 800` ms) fires end-of-turn, and handing the finalized
blob to `processAudio` transitions `listening → processing`. -/
theorem scenario_b_full_turn :
    (runFrames listeningState (List.take 4 scenarioB)).1.hasSpoken = false
    ∧ (runFrames listeningState (List.take 5 scenarioB)).1.hasSpoken = true
    ∧ (runFrames listeningState (List.take 19 scenarioB)).1.silenceTimeout = false
    ∧ (runFrames listeningState (List.take 20 scenarioB)).1.silenceFrameCount = 15
    ∧ (runFrames listeningState (List.take 20 scenarioB)).1.silenceTimeout = true
    ∧ (runFrames listeningState scenarioB).2 = false
    ∧ (runFrames listeningState scenarioB).1.state = ConversationState.listening
    ∧ SILENCE_DURATION = 800
    ∧ (fireSilenceTimeout (runFrames listeningState scenarioB).1).2 = true
    ∧ (processAudio (fireSilenceTimeout (runFrames listeningState scenarioB).1).1
        5000 400).1.state = ConversationState.processing := by
  decide

/-- C5 counterexample: on the frame sequence [0.05]*10 the classifier does
NOT stay idle — 0.05 exceeds `VOICE_THRESHOLD = 0.035`, so `HasSpokenFlag`
becomes true (after the fifth frame), contradicting the claim that it
remains false. -/
theorem scenario_a_counterexample :
    (runFrames listeningState scenarioAFrames).1.hasSpoken = true := by
  decide

/-- C5 amended: on ten frames at 0.005 (genuinely below
`SILENCE_THRESHOLD = 0.015`, as Scenario A intends) with HasSpoken
initially false, the classifier stays idle: HasSpoken remains false, no
end-of-turn timer is armed, no tick triggers end-of-turn, and a stray
timer firing afterwards would not trigger one either (so no pipeline call
is ever made). -/
theorem scenario_a_silence_stays_idle :
    (runFrames listeningState scenarioAIntended).1.hasSpoken = false
    ∧ (runFrames listeningState scenarioAIntended).1.silenceTimeout = false
    ∧ (runFrames listeningState scenarioAIntended).2 = false
    ∧ (fireSilenceTimeout (runFrames listeningState scenarioAIntended).1).2 = false := by
  decide

/-- C4 counterexample: a frame with energy exactly `SILENCE_THRESHOLD`
while HasSpoken is false is NOT classified as silence: from counters
(voice 3, silence 2) the claim predicts (0, 3), but the code's strict
`average < SILENCE_THRESHOLD` test sends the frame to the decay band. -/
theorem threshold_boundary_counterexample :
    ¬ ((detectVoiceActivity boundaryState SILENCE_THRESHOLD 0).1.silenceFrameCount
          = boundaryState.silenceFrameCount + 1
        ∧ (detectVoiceActivity boundaryState SILENCE_THRESHOLD 0).1.voiceFrameCount = 0) := by
  decide

/-- C4 amended: a frame with energy exactly `SILENCE_THRESHOLD` arriving
while HasSpoken is false falls in the decay band: the voice-frame counter
decrements toward zero, the silence-frame counter is unchanged, and no
end-of-turn is triggered — the pre-speech "not speaking" condition requires
energy strictly below `SILENCE_THRESHOLD`. -/
theorem threshold_boundary_decay (s : VCState) (now : Nat)
    (hsp : s.hasSpoken = false) (han : s.analyserPresent = true)
    (hac : s.isActive = true) (hrec : s.recorderRecording = true)
    (hst : s.state = ConversationState.listening) :
    (detectVoiceActivity s SILENCE_THRESHOLD now).1.voiceFrameCount
        = s.voiceFrameCount - 1
    ∧ (detectVoiceActivity s SILENCE_THRESHOLD now).1.silenceFrameCount
        = s.silenceFrameCount
    ∧ (detectVoiceActivity s SILENCE_THRESHOLD now).2 = false := by
  unfold detectVoiceActivity
  rw [if_neg (by simp [han, hac]), if_pos ⟨hrec, hst⟩, if_neg (by simp [hsp]),
      if_neg (by decide), if_neg (by simp only [hsp]; decide)]
  exact ⟨rfl, rfl, rfl⟩

/-- Witness for the amended C4 at the concrete mid-turn state. -/
theorem threshold_boundary_decay_witness :
    (detectVoiceActivity boundaryState SILENCE_THRESHOLD 0).1.voiceFrameCount = 2
    ∧ (detectVoiceActivity boundaryState SILENCE_THRESHOLD 0).1.silenceFrameCount = 2 := by
  have h := threshold_boundary_decay boundaryState 0 rfl rfl rfl rfl rfl
  exact ⟨h.1.trans (by decide), h.2.1.trans (by decide)⟩

/-- C1: a conversation stopped while the transcription call is in flight
does go `idle` immediately, but the late completion is NOT dropped: when
the transcription resolves with non-empty text, a user message is appended
to the log of the now-idle conversation, the text is forwarded to the
response-generation endpoint, and if that returns text plus audio the
state is even driven from `idle` to `speaking`. -/
theorem stale_transcription_not_dropped :
    (stopConversation procState).1.state = ConversationState.idle
    ∧ (stopConversation procState).1.isActive = false
    ∧ (onTranscribeResult (stopConversation procState).1
        { success := true, text := "hello" } 61000).1.messages
      = (stopConversation procState).1.messages
        ++ [{ type := MsgType.user, text := "hello" }]
    ∧ (onTranscribeResult (stopConversation procState).1
        { success := true, text := "hello" } 61000).2 = some "hello"
    ∧ (onCommandResult
        (onTranscribeResult (stopConversation procState).1
          { success := true, text := "hello" } 61000).1
        { success := true, text := "hi there", audioBase64 := true }
        61200).state = ConversationState.speaking := by
  decide

/-- C9: stopping is idempotent on resources — after one `stopConversation`
every handle is cleared, so a second call releases nothing (each timer,
animation frame, audio element, recorder, stream and audio context is
released at most once) and still lands in `idle`. -/
theorem stop_conversation_idempotent (s : VCState) :
    (stopConversation (stopConversation s).1).2 = []
    ∧ (stopConversation (stopConversation s).1).1.state = ConversationState.idle := by
  exact ⟨rfl, rfl⟩

/-- C10: every `stopConversation` call appends the system message
"Conversation ended." unconditionally — also when already idle — so n
consecutive stop calls grow the log by exactly n messages. -/
theorem stop_always_appends_ended (s : VCState) (n : Nat) :
    (stopConversation s).1.messages
      = s.messages ++ [{ type := MsgType.system, text := "Conversation ended." }]
    ∧ (stopIter n s).messages.length = s.messages.length + n := by
  refine ⟨rfl, ?_⟩
  induction n generalizing s with
  | zero => simp [stopIter]
  | succ k ih =>
    have h := ih (stopConversation s).1
    simp only [stopIter] at h ⊢
    rw [h]
    simp [stopConversation, cleanup, addMessage]
    omega

/-- One silent (sub-voice-threshold) tick neither confirms speech nor
triggers end-of-turn. -/
lemma detect_silent_step (s : VCState) (a : ℚ) (now : Nat)
    (hsp : s.hasSpoken = false) (ha : a < VOICE_THRESHOLD) :
    (detectVoiceActivity s a now).1.hasSpoken = false
    ∧ (detectVoiceActivity s a now).2 = false := by
  unfold detectVoiceActivity
  split
  · exact ⟨hsp, rfl⟩
  · split
    · rw [if_neg (by simp [hsp]), if_neg (not_le.mpr ha)]
      split
      · split
        · rename_i h; rw [hsp] at h; exact absurd h.1 (by simp)
        · exact ⟨hsp, rfl⟩
      · exact ⟨hsp, rfl⟩
    · exact ⟨hsp, rfl⟩

/-- Iterated form of `detect_silent_step` over a whole frame sequence. -/
lemma runFrames_silent (l : List (ℚ × Nat)) : ∀ s : VCState,
    s.hasSpoken = false → (∀ p ∈ l, p.1 < VOICE_THRESHOLD) →
    (runFrames s l).1.hasSpoken = false ∧ (runFrames s l).2 = false := by
  induction l with
  | nil => intro s h _; exact ⟨h, rfl⟩
  | cons p l ih =>
    intro s h hl
    have hstep := detect_silent_step s p.1 p.2 h (hl p (List.mem_cons_self p l))
    have hrest := ih (detectVoiceActivity s p.1 p.2).1 hstep.1
      (fun q hq => hl q (List.mem_cons_of_mem p hq))
    simp only [runFrames]
    exact ⟨hrest.1, by rw [hstep.2, hrest.2]; rfl⟩

/-- The silence-timeout body never ends the turn while speech is
unconfirmed. -/
lemma fire_silent (s : VCState) (h : s.hasSpoken = false) :
    (fireSilenceTimeout s).2 = false := by
  unfold fireSilenceTimeout
  split
  · rename_i hc; rw [h] at hc; exact absurd hc.2.2.2 (by simp)
  · rfl

/-- C2: an end-of-turn is never triggered while HasSpoken is false — over
any frame sequence whose energies stay below `VOICE_THRESHOLD` (in
particular any silent-only session), at arbitrary clock times (so also past
`MAX_RECORDING_MS`), no tick triggers end-of-turn, HasSpoken stays false,
and the silence timeout firing afterwards does not trigger one either. -/
theorem silent_session_never_ends (s : VCState) (l : List (ℚ × Nat))
    (hsp : s.hasSpoken = false)
    (hl : ∀ p ∈ l, p.1 < VOICE_THRESHOLD) :
    (runFrames s l).1.hasSpoken = false
    ∧ (runFrames s l).2 = false
    ∧ (fireSilenceTimeout (runFrames s l).1).2 = false := by
  have h := runFrames_silent l s hsp hl
  exact ⟨h.1, h.2, fire_silent _ h.1⟩

/-- Witness for C2: a silent frame arriving 100 s into the recording (past
`MAX_RECORDING_MS`) still triggers nothing. -/
theorem silent_session_never_ends_witness :
    (runFrames listeningState [(mkRat 5 1000, 100000)]).2 = false
    ∧ (fireSilenceTimeout (runFrames listeningState [(mkRat 5 1000, 100000)]).1).2
        = false :=
  ⟨(silent_session_never_ends listeningState [(mkRat 5 1000, 100000)] rfl
      (by decide)).2.1,
   (silent_session_never_ends listeningState [(mkRat 5 1000, 100000)] rfl
      (by decide)).2.2⟩

/-- C6: reentrancy — while the state is `processing` (with the
is-processing flag set, as the pipeline holds it), classifier ticks change
no counter, arm or cancel no timer, leave HasSpoken and the state alone and
trigger no end-of-turn; the silence-timeout body triggers no end-of-turn;
`processAudio` refuses to start a second pipeline invocation; and
`processing` excludes the recording and playing states (the state enum
holds exactly one value). -/
theorem processing_reentrancy (s : VCState) (a : ℚ) (now blob : Nat)
    (hst : s.state = ConversationState.processing)
    (hp : s.isProcessing = true) :
    (detectVoiceActivity s a now).2 = false
    ∧ (detectVoiceActivity s a now).1.silenceTimeout = s.silenceTimeout
    ∧ (detectVoiceActivity s a now).1.voiceFrameCount = s.voiceFrameCount
    ∧ (detectVoiceActivity s a now).1.silenceFrameCount = s.silenceFrameCount
    ∧ (detectVoiceActivity s a now).1.hasSpoken = s.hasSpoken
    ∧ (detectVoiceActivity s a now).1.state = ConversationState.processing
    ∧ (fireSilenceTimeout s).2 = false
    ∧ (processAudio s blob now).2 = false
    ∧ (processAudio s blob now).1 = s
    ∧ s.state ≠ ConversationState.listening
    ∧ s.state ≠ ConversationState.speaking := by
  have hcond : ¬(s.recorderRecording = true ∧ s.state = ConversationState.listening) := by
    rintro ⟨-, h⟩; rw [hst] at h; exact absurd h (by decide)
  have hd : detectVoiceActivity s a now
      = if s.analyserPresent = false ∨ s.isActive = false
        then ({ s with vadLoop := false }, false)
        else ({ s with vadLoop := s.isActive }, false) := by
    unfold detectVoiceActivity
    rw [if_neg hcond]
  have hfire : (fireSilenceTimeout s).2 = false := by
    unfold fireSilenceTimeout
    rw [if_neg (by rintro ⟨-, h, -⟩; rw [hp] at h; exact absurd h (by simp))]
  have hpa : processAudio s blob now = (s, false) := by
    unfold processAudio
    rw [if_pos (Or.inl hp)]
  refine ⟨?_, ?_, ?_, ?_, ?_, ?_, hfire, ?_, ?_, ?_, ?_⟩
  · rw [hd]; split <;> rfl
  · rw [hd]; split <;> rfl
  · rw [hd]; split <;> rfl
  · rw [hd]; split <;> rfl
  · rw [hd]; split <;> rfl
  · rw [hd]; split <;> exact hst
  · rw [hpa]
  · rw [hpa]
  · rw [hst]; exact fun h => absurd h (by decide)
  · rw [hst]; exact fun h => absurd h (by decide)

/-- Witness for C6 at the reachable `processing` state of scenario B. -/
theorem processing_reentrancy_witness :
    (detectVoiceActivity procState (mkRat 5 100) 500).2 = false
    ∧ (fireSilenceTimeout procState).2 = false
    ∧ (processAudio procState 5000 500).2 = false := by
  have h := processing_reentrancy procState (mkRat 5 100) 500 5000
    (by decide) (by decide)
  exact ⟨h.1, h.2.2.2.2.2.2.1, h.2.2.2.2.2.2.2.1⟩

/-- C8: when the transcription result is unsuccessful or its text trims to
empty, the response-generation endpoint is never called, no message is
appended to the conversation log, and — if the conversation is still
active — the controller returns to `listening` and (given the stream is
still held) resumes recording. -/
theorem empty_transcription_skips_command (s : VCState) (r : TranscribeResult)
    (now : Nat) (h : r.success = false ∨ jsTrim r.text = "") :
    (onTranscribeResult s r now).2 = none
    ∧ (onTranscribeResult s r now).1.messages = s.messages
    ∧ (s.isActive = true →
        (onTranscribeResult s r now).1.state = ConversationState.listening)
    ∧ (s.isActive = true → s.streamPresent = true →
        (onTranscribeResult s r now).1.recorderRecording = true) := by
  refine ⟨?_, ?_, fun hact => ?_, fun hact hstream => ?_⟩
  · unfold onTranscribeResult
    rw [if_pos h]
    split <;> rfl
  · unfold onTranscribeResult
    rw [if_pos h]
    split
    · unfold startRecording; split <;> rfl
    · rfl
  · unfold onTranscribeResult
    rw [if_pos h, if_pos hact]
    unfold startRecording
    split <;> rfl
  · unfold onTranscribeResult
    rw [if_pos h, if_pos hact]
    unfold startRecording
    rw [if_neg (by simp [hstream, hact])]

/-- Fuel-based little-endian decimal digits (kernel-computable; fuel `n`
always suffices since `n / 10` shrinks). -/
def decDigitsAux : Nat → Nat → List Nat
  | 0, _ => []
  | fuel + 1, n => if n = 0 then [] else n % 10 :: decDigitsAux fuel (n / 10)

/-- Little-endian decimal digits of `n`. -/
def decDigits (n : Nat) : List Nat := decDigitsAux n n

/-- Decimal rendering of a natural number, as JavaScript template-literal
interpolation renders the `Date.now()` timestamp. -/
def natToString (n : Nat) : String :=
  if n = 0 then "0"
  else { data := ((decDigits n).map Nat.digitChar).reverse }

/-- Decimal parser inverting `natToString` (proof device). -/
def parseDec (s : String) : Nat :=
  s.data.foldl (fun acc c => 10 * acc + (c.toNat - 48)) 0

/-- The body of the response-generation request
(`{text, userId, sessionId, role}`). -/
structure CommandRequest where
  text : String
  userId : String
  sessionId : String
  role : String
deriving Repr, DecidableEq

/-- The request body built at a response-generation call at clock `now`:
the source constructs the sessionId at the call site from the current
timestamp. -/
def mkCommandRequest (userText userId role : String) (now : Nat) :
    CommandRequest :=
  { text := userText, userId := userId,
    sessionId := "realtime_" ++ natToString now, role := role }

/-- Every digit produced by `decDigitsAux` is below 10. -/
lemma decDigitsAux_lt10 : ∀ fuel n d, d ∈ decDigitsAux fuel n → d < 10 := by
  intro fuel
  induction fuel with
  | zero => intro n d hd; simp [decDigitsAux] at hd
  | succ f ih =>
    intro n d hd
    by_cases h : n = 0
    · simp [decDigitsAux, h] at hd
    · simp only [decDigitsAux, if_neg h, List.mem_cons] at hd
      rcases hd with h1 | h2
      · subst h1; exact Nat.mod_lt n (by norm_num)
      · exact ih (n / 10) d h2

/-- With enough fuel, `decDigitsAux` produces the base-10 digits of `n`. -/
lemma decDigitsAux_ofDigits : ∀ fuel n, n ≤ fuel →
    Nat.ofDigits 10 (decDigitsAux fuel n) = n := by
  intro fuel
  induction fuel with
  | zero =>
    intro n h
    interval_cases n
    simp [decDigitsAux, Nat.ofDigits]
  | succ f ih =>
    intro n h
    by_cases h0 : n = 0
    · simp [decDigitsAux, h0, Nat.ofDigits]
    · have hlt : n / 10 < n := Nat.div_lt_self (Nat.pos_of_ne_zero h0) (by norm_num)
      simp only [decDigitsAux, if_neg h0, Nat.ofDigits_cons]
      rw [ih (n / 10) (by omega)]
      omega

/-- Folding the decimal parser over the rendered digits recovers the
positional value. -/
lemma parse_foldl (ds : List Nat) : ∀ a : Nat, (∀ d ∈ ds, d < 10) →
    List.foldl (fun acc c => 10 * acc + (c.toNat - 48)) a
        ((ds.map Nat.digitChar).reverse)
      = a * 10 ^ ds.length + Nat.ofDigits 10 ds := by
  induction ds with
  | nil => intro a _; simp [Nat.ofDigits]
  | cons d t ih =>
    intro a h
    have hchar : (Nat.digitChar d).toNat - 48 = d := by
      have hd : d < 10 := h d (List.mem_cons_self d t)
      interval_cases d <;> rfl
    rw [List.map_cons, List.reverse_cons, List.foldl_append]
    rw [ih a (fun x hx => h x (List.mem_cons_of_mem d hx))]
    simp only [List.foldl_cons, List.foldl_nil]
    rw [hchar, Nat.ofDigits_cons, List.length_cons]
    ring

/-- `parseDec` inverts `natToString`. -/
lemma parseDec_natToString (n : Nat) : parseDec (natToString n) = n := by
  by_cases h : n = 0
  · subst h; decide
  · unfold natToString parseDec
    rw [if_neg h]
    show List.foldl _ 0 (((decDigits n).map Nat.digitChar).reverse) = n
    rw [parse_foldl (decDigits n) 0 (fun d hd => decDigitsAux_lt10 n n d hd)]
    unfold decDigits
    rw [decDigitsAux_ofDigits n n (le_refl n)]
    omega

/-- Decimal rendering is injective. -/
lemma natToString_injective : Function.Injective natToString := by
  intro a b h
  have h2 := congrArg parseDec h
  rwa [parseDec_natToString, parseDec_natToString] at h2

/-- Appending to a common prefix is cancellative on strings. -/
lemma string_append_left_cancel {p x y : String} (h : p ++ x = p ++ y) :
    x = y := by
  have h2 := congrArg String.data h
  rw [String.data_append, String.data_append] at h2
  cases x
  cases y
  exact congrArg String.mk (List.append_cancel_left h2)

/-- C7 counterexample: the session identifier is NOT constant across a
conversation — two response-generation calls of one conversation, made at
timestamps 1000 and 2000, carry different sessionIds. -/
theorem session_id_not_per_conversation :
    (mkCommandRequest "first turn" "u1" "LORD" 1000).sessionId
      ≠ (mkCommandRequest "second turn" "u1" "LORD" 2000).sessionId := by
  decide

/-- C7 amended: the session identifier is generated freshly at every
response-generation call, by interpolating that call's timestamp; calls
whose timestamps differ carry different identifiers, so consecutive turns
do not share one. -/
theorem session_id_fresh_per_call (t1 t2 : Nat) (x1 x2 u r : String)
    (h : t1 ≠ t2) :
    (mkCommandRequest x1 u r t1).sessionId
      ≠ (mkCommandRequest x2 u r t2).sessionId := by
  intro he
  simp only [mkCommandRequest] at he
  exact h (natToString_injective (string_append_left_cancel he))

/-- Witness for the amended C7: calls one millisecond apart differ. -/
theorem session_id_fresh_per_call_witness :
    (mkCommandRequest "hello" "u1" "LORD" 1000).sessionId
      ≠ (mkCommandRequest "again" "u1" "LORD" 1001).sessionId :=
  session_id_fresh_per_call 1000 1001 "hello" "again" "u1" "LORD" (by decide)

/-- Witness for C8: an active processing state receiving a successful but
whitespace-only transcription goes back to listening, recording, with no
message appended and no response-generation call. -/
theorem empty_transcription_skips_command_witness :
    (onTranscribeResult procState { success := true, text := "   " } 500).2 = none
    ∧ (onTranscribeResult procState { success := true, text := "   " } 500).1.state
        = ConversationState.listening
    ∧ (onTranscribeResult procState { success := true, text := "   " } 500).1.recorderRecording
        = true := by
  have h := empty_transcription_skips_command procState
    { success := true, text := "   " } 500 (Or.inr (by decide))
  exact ⟨h.1, h.2.2.1 (by decide), h.2.2.2 (by decide) (by decide)⟩
